import Mathlib

/-!
Shallow embedding of the MetaApi websocket client core
(`lib/clients/metaApi/metaApiWebsocket_client.py` and
`lib/clients/metaApi/subscriptionManager.py`).

Timestamps are modelled as exact rationals (`ℚ`, seconds since epoch),
listeners as opaque natural-number identifiers, and the Python dictionaries
as association lists with dict-assignment semantics (`setKey` replaces the
first binding of a key or appends a new one).
-/

namespace MetaApiSDK

/-- Dict assignment `m[k] = v`: replace the binding of `k`, or append it. -/
def setKey {α : Type} : List (String × α) → String → α → List (String × α)
  | [], k, v => [(k, v)]
  | (a, b) :: t, k, v => if a = k then (k, v) :: t else (a, b) :: setKey t k v

/-- Dict deletion `del m[k]`. -/
def removeKey {α : Type} (m : List (String × α)) (k : String) : List (String × α) :=
  m.filter (fun p => !(p.1 == k))

/-- Metadata carried by a `TooManyRequestsError` frame: its limit type and the
`recommendedRetryTime` (modelled directly as a timestamp in seconds). -/
structure TMRMetadata where
  errType : String
  recommendedRetryTime : ℚ
deriving Repr, DecidableEq

/-- A per-socket subscribe lock (`instance['subscribeLock']`). -/
structure PerSocketLock where
  recommendedRetryTime : ℚ
  lockType : String
  lockedAtAccounts : ℕ
deriving Repr, DecidableEq

/-- The pool-wide subscribe lock (`self._subscribeLock`). -/
structure GlobalLock where
  recommendedRetryTime : ℚ
  lockedAtAccounts : ℕ
  lockedAtTime : ℚ
deriving Repr, DecidableEq

/-- One socket instance dictionary from `MetaApiWebsocketClient.connect`.
Pending request futures are modelled by the list of registered request ids
(`requestResolves` keys); an id is present while the future is not done. -/
structure SocketInstance where
  connected : Bool
  requestResolves : List String
  sessionId : String
  subscribeLock : Option PerSocketLock
deriving Repr, DecidableEq

/-- The mutable state of `MetaApiWebsocketClient` that the verified claims
touch, together with the `SubscriptionManager._subscriptions` map
(`subscriptions`, instance id `accountId:instanceNumber` ↦ `shouldRetry`).
`statusTimers` maps an instance id to the time at which its currently
scheduled disconnect watchdog would fire. -/
structure ClientState where
  socketInstances : List SocketInstance
  socketInstancesByAccounts : List (String × ℕ)
  synchronizationListeners : List (String × List ℕ)
  latencyListeners : List ℕ
  reconnectListeners : List (String × ℕ)
  connectedHosts : List (String × String)
  subscribeLock : Option GlobalLock
  subscriptions : List (String × Bool)
  statusTimers : List (String × ℚ)
  lastRequestsTime : List (String × List (String × ℚ))
deriving Repr, DecidableEq

/-- A client state with no sockets, no listeners and no locks, as built by
`MetaApiWebsocketClient.__init__`. -/
def emptyClient : ClientState :=
  { socketInstances := []
    socketInstancesByAccounts := []
    synchronizationListeners := []
    latencyListeners := []
    reconnectListeners := []
    connectedHosts := []
    subscribeLock := none
    subscriptions := []
    statusTimers := []
    lastRequestsTime := [] }

/-- `add_synchronization_listener`: append the listener to the account's list,
creating the list when the key is absent. -/
def add_synchronization_listener (st : ClientState) (accountId : String) (l : ℕ) :
    ClientState :=
  let listeners := (st.synchronizationListeners.lookup accountId).getD []
  { st with synchronizationListeners :=
      setKey st.synchronizationListeners accountId (listeners ++ [l]) }

/-- `remove_synchronization_listener`: the source reads
`self._synchronizationListeners[account_id]` unconditionally, which raises
`KeyError` when the account has no entry; otherwise it removes the first
occurrence of the listener when present and stores the list back. -/
def remove_synchronization_listener (st : ClientState) (accountId : String) (l : ℕ) :
    Except String ClientState :=
  match st.synchronizationListeners.lookup accountId with
  | none => .error "KeyError"
  | some listeners =>
      let listeners2 :=
        if listeners.isEmpty then []
        else if listeners.contains l then listeners.erase l
        else listeners
      .ok { st with synchronizationListeners :=
              setKey st.synchronizationListeners accountId listeners2 }

/-- `add_latency_listener`: append to the global latency-listener list. -/
def add_latency_listener (st : ClientState) (l : ℕ) : ClientState :=
  { st with latencyListeners := st.latencyListeners ++ [l] }

/-- `remove_latency_listener`: filter out every occurrence of the listener. -/
def remove_latency_listener (st : ClientState) (l : ℕ) : ClientState :=
  { st with latencyListeners := st.latencyListeners.filter (fun x => x ≠ l) }

/-- `add_reconnect_listener`: append an `(accountId, listener)` pair. -/
def add_reconnect_listener (st : ClientState) (accountId : String) (l : ℕ) :
    ClientState :=
  { st with reconnectListeners := st.reconnectListeners ++ [(accountId, l)] }

/-- Remove the first pair whose listener component matches (helper for
`remove_reconnect_listener`, which scans for the first match and removes it). -/
def removeFirstListener : List (String × ℕ) → ℕ → List (String × ℕ)
  | [], _ => []
  | (a, x) :: t, l => if x = l then t else (a, x) :: removeFirstListener t l

/-- `remove_reconnect_listener`: remove the first registered pair carrying the
listener. -/
def remove_reconnect_listener (st : ClientState) (l : ℕ) : ClientState :=
  { st with reconnectListeners := removeFirstListener st.reconnectListeners l }

/-- `remove_all_listeners`: the source resets `_synchronizationListeners` and
`_reconnectListeners` only; `_latencyListeners` is left untouched. -/
def remove_all_listeners (st : ClientState) : ClientState :=
  { st with synchronizationListeners := [], reconnectListeners := [] }

/-- `close`: every connected instance is marked disconnected and its pending
request futures are failed with `Exception('MetaApi connection closed')`;
then the synchronization- and latency-listener registries, the
account-to-socket map and the socket list are cleared. `_reconnectListeners`
and `_connectedHosts` are not touched by the source. -/
def close (st : ClientState) : ClientState :=
  { st with
    socketInstances := []
    socketInstancesByAccounts := []
    synchronizationListeners := []
    latencyListeners := [] }

/-- The error taxonomy of §4.1: the kinds produced by `_convert_error`. -/
inductive ErrKind
  | validation
  | notFound
  | notSynchronized
  | timeout
  | notConnected
  | trade
  | unauthorized
  | tooManyRequests
  | internal
deriving Repr, DecidableEq

/-- An inbound `processingError` frame. -/
structure ProcessingErrorFrame where
  requestId : String
  error : String
  message : String
  metadata : Option TMRMetadata
deriving Repr, DecidableEq

/-- `_convert_error`: map the frame's `error` string to an exception kind.
In the `UnauthorizedError` branch the source executes `self.close()`, but
`close` is a coroutine function and the returned coroutine is never awaited
nor scheduled, so it has no effect on the client state; the conversion is
therefore a pure function of the frame. -/
def convert_error (frame : ProcessingErrorFrame) : ErrKind :=
  if frame.error = "ValidationError" then .validation
  else if frame.error = "NotFoundError" then .notFound
  else if frame.error = "NotSynchronizedError" then .notSynchronized
  else if frame.error = "TimeoutError" then .timeout
  else if frame.error = "NotAuthenticatedError" then .notConnected
  else if frame.error = "TradeError" then .trade
  else if frame.error = "UnauthorizedError" then .unauthorized
  else if frame.error = "TooManyRequestsError" then .tooManyRequests
  else .internal

/-- The `processingError` socket handler: when the frame's request id has a
pending future on the receiving instance, the entry is removed and the future
is failed with `_convert_error(data)`; otherwise nothing happens. Returns the
new state and the exception kind assigned to the pending future, if any. -/
def on_processing_error (st : ClientState) (idx : ℕ) (frame : ProcessingErrorFrame) :
    ClientState × Option ErrKind :=
  match st.socketInstances[idx]? with
  | none => (st, none)
  | some inst =>
      if inst.requestResolves.contains frame.requestId then
        let inst2 : SocketInstance :=
          { inst with requestResolves := inst.requestResolves.erase frame.requestId }
        ({ st with socketInstances := st.socketInstances.set idx inst2 },
         some (convert_error frame))
      else (st, none)

/-- `_throttle_request`: look up the last recorded time for
`(type, accountId)`; when absent, record `now` and return `False`; when the
recorded time is older than `now - time_in_ms / 1000`, record `now` and
return `True`; otherwise return `False` without recording. -/
def throttle_request (st : ClientState) (ty accountId : String) (timeInMs : ℚ)
    (now : ℚ) : Bool × ClientState :=
  let tyMap := (st.lastRequestsTime.lookup ty).getD []
  let record : ClientState :=
    { st with lastRequestsTime :=
        setKey st.lastRequestsTime ty (setKey tyMap accountId now) }
  match tyMap.lookup accountId with
  | none => (false, record)
  | some lastTime =>
      if lastTime < now - timeInMs / 1000 then (true, record)
      else (false, st)

/-- The default of the `unsubscribeThrottlingIntervalInSeconds` option set in
`__init__` (a count of seconds). -/
def defaultUnsubscribeThrottlingInterval : ℚ := 10

/-- The `on_synchronization` drop path for an inactive subscription passes
`self._unsubscribeThrottlingInterval` (a value in seconds) as the `time_in_ms`
argument of `_throttle_request`; an unsubscribe request is issued exactly when
the throttle returns `True`. -/
def inactive_drop_triggers_unsubscribe (st : ClientState) (accountId : String)
    (now : ℚ) : Bool × ClientState :=
  throttle_request st "unsubscribe" accountId defaultUnsubscribeThrottlingInterval now

/-- A concrete client used to evaluate the `processingError` handler: one
connected socket with a pending request `r1`, one assigned account, and
listeners in every registry. -/
def c1State : ClientState :=
  { emptyClient with
    socketInstances :=
      [{ connected := true, requestResolves := ["r1"], sessionId := "s", subscribeLock := none }]
    socketInstancesByAccounts := [("a", 0)]
    synchronizationListeners := [("a", [1])]
    latencyListeners := [2]
    reconnectListeners := [("a", 3)] }

/-- An inbound `processingError` frame carrying an `UnauthorizedError`. -/
def c1Frame : ProcessingErrorFrame :=
  { requestId := "r1", error := "UnauthorizedError", message := "m", metadata := none }

/-- C1: on an inbound `processingError` frame with error `UnauthorizedError`,
the pending request registered under the frame's request id is indeed failed
with an Unauthorized error, but the socket pool is NOT closed: the socket
stays connected and the listener registries and account-to-socket assignments
are all left intact, because `_convert_error` calls the coroutine function
`self.close()` without awaiting or scheduling it. -/
theorem c1_unauthorized_error_does_not_close_pool :
    (on_processing_error c1State 0 c1Frame).2 = some ErrKind.unauthorized ∧
    (on_processing_error c1State 0 c1Frame).1 =
      { c1State with socketInstances :=
          [{ connected := true, requestResolves := [], sessionId := "s", subscribeLock := none }] } ∧
    ((on_processing_error c1State 0 c1Frame).1.socketInstances.map SocketInstance.connected
       = [true]) := by
  refine ⟨by decide, by decide, by decide⟩

/-- C6: after `remove_all_listeners`, the synchronization- and
reconnect-listener registries are empty but the latency-listener registry is
not: a latency listener added beforehand survives the call, contradicting the
claim that all three registries end up empty. -/
theorem c6_remove_all_listeners_keeps_latency_listeners :
    (remove_all_listeners
        (add_latency_listener
          (add_reconnect_listener
            (add_synchronization_listener emptyClient "a" 1) "a" 2) 3)).synchronizationListeners
        = [] ∧
    (remove_all_listeners
        (add_latency_listener
          (add_reconnect_listener
            (add_synchronization_listener emptyClient "a" 1) "a" 2) 3)).reconnectListeners
        = [] ∧
    (remove_all_listeners
        (add_latency_listener
          (add_reconnect_listener
            (add_synchronization_listener emptyClient "a" 1) "a" 2) 3)).latencyListeners
        = [3] := by
  refine ⟨by decide, by decide, by decide⟩

/-- C7: `remove_synchronization_listener` raises `KeyError` when the account
has no registered listener list, instead of treating the absent entry as "no
listeners"; on a present entry, calling it twice with the same arguments
equals calling it once. -/
theorem c7_remove_sync_listener_raises_on_absent_entry :
    remove_synchronization_listener emptyClient "a" 1 = .error "KeyError" ∧
    remove_synchronization_listener (add_synchronization_listener emptyClient "a" 1) "a" 1
      = .ok ({ emptyClient with synchronizationListeners := [("a", [])] }) ∧
    remove_synchronization_listener
        ({ emptyClient with synchronizationListeners := [("a", [])] }) "a" 1
      = .ok ({ emptyClient with synchronizationListeners := [("a", [])] }) := by
  refine ⟨by rfl, by rfl, by rfl⟩

/-- C10: the first inactive-subscription packet drop for an account records
the time and does not trigger an unsubscribe, but a second drop only one
second later already triggers one, because `_throttle_request` divides its
argument by 1000 (treating it as milliseconds) while `on_synchronization`
passes `unsubscribeThrottlingIntervalInSeconds = 10`, a value in seconds; the
effective throttle window is 0.01 s rather than 10 s. -/
theorem c10_unsubscribe_throttle_window_is_milliseconds :
    (inactive_drop_triggers_unsubscribe emptyClient "a" 0).1 = false ∧
    (inactive_drop_triggers_unsubscribe
        (inactive_drop_triggers_unsubscribe emptyClient "a" 0).2 "a" 1).1 = true ∧
    (1 : ℚ) < defaultUnsubscribeThrottlingInterval := by
  refine ⟨by rfl, ?_, ?_⟩
  · simp [inactive_drop_triggers_unsubscribe, throttle_request, emptyClient, setKey,
      List.lookup, defaultUnsubscribeThrottlingInterval]
    norm_num
  · norm_num [defaultUnsubscribeThrottlingInterval]

/-- The fields of the client relevant to `_get_server_url`: `self._domain`,
`self._region` and `self._useSharedClientApi` as set by `__init__`. -/
structure UrlConfig where
  domain : String
  region : Option String
  useSharedClientApi : Bool
deriving Repr, DecidableEq

/-- `self._hostname`, fixed by `__init__`. -/
def clientApiHostname : String := "mt-client-api-v1"

/-- `self._url` as set by `__init__` (the model assumes the test-only
`set_url` patch method has not been called). -/
def initialUrl (domain : String) : String :=
  "https://" ++ clientApiHostname ++ "." ++ domain

/-- The JSON body answered by `GET .../users/current/servers/mt-client-api`. -/
structure ServerItemResponse where
  url : String
  hostname : String
  domain : String
deriving Repr, DecidableEq

/-- The failure `_get_server_url` can raise. -/
inductive UrlError
  | notFound
deriving Repr, DecidableEq

/-- `_get_server_url`: `regions` is the parsed body of
`GET .../users/current/regions` (only fetched when a region is configured)
and `server` the body of `GET .../users/current/servers/mt-client-api` (only
fetched when not using the shared client API); the two HTTP responses are
passed as oracles. Logging-only statements of the source are omitted. -/
def get_server_url (cfg : UrlConfig) (regions : List String)
    (server : ServerItemResponse) : Except UrlError String :=
  match cfg.region with
  | none =>
      if cfg.useSharedClientApi then .ok (initialUrl cfg.domain)
      else .ok server.url
  | some r =>
      if regions.contains r then
        let isDefaultRegion : Bool := regions.head? == some r
        if cfg.useSharedClientApi then
          if isDefaultRegion then .ok (initialUrl cfg.domain)
          else .ok ("https://" ++ clientApiHostname ++ "." ++ r ++ "." ++ cfg.domain)
        else
          if isDefaultRegion then .ok server.url
          else .ok ("https://" ++ server.hostname ++ "." ++ r ++ "." ++ cfg.domain)
      else .error .notFound

/-- C8: with the shared client API, the resolver returns
`https://mt-client-api-v1.{domain}` when no region is configured or the
configured region is the first (default) one of the regions response,
returns `https://mt-client-api-v1.{region}.{domain}` for a non-default
region, and raises NotFound whenever the configured region is not contained
in the regions response. -/
theorem c8_url_resolver (d r : String) (regions : List String)
    (server : ServerItemResponse) :
    (get_server_url ⟨d, none, true⟩ regions server
        = .ok ("https://mt-client-api-v1." ++ d)) ∧
    (regions.head? = some r →
      get_server_url ⟨d, some r, true⟩ regions server
        = .ok ("https://mt-client-api-v1." ++ d)) ∧
    (r ∈ regions → regions.head? ≠ some r →
      get_server_url ⟨d, some r, true⟩ regions server
        = .ok ("https://mt-client-api-v1." ++ r ++ "." ++ d)) ∧
    (∀ shared, ¬ r ∈ regions →
      get_server_url ⟨d, some r, shared⟩ regions server = .error .notFound) := by
  refine ⟨?_, ?_, ?_, ?_⟩
  · simp [get_server_url, initialUrl, clientApiHostname, ← String.append_assoc]
  · intro hhead
    have hmem : r ∈ regions := by
      cases regions with
      | nil => simp at hhead
      | cons a t => simp at hhead; simp [hhead]
    simp [get_server_url, initialUrl, clientApiHostname, hmem, hhead,
      ← String.append_assoc]
  · intro hmem hhead
    simp [get_server_url, initialUrl, clientApiHostname, hmem, hhead,
      ← String.append_assoc]
  · intro shared hmem
    simp [get_server_url, hmem]

/-- C8 witness: the resolver evaluated at concrete inputs covering all four
cases of the theorem. -/
theorem c8_url_resolver_witness :
    (get_server_url ⟨"agiliumtrade.ai", none, true⟩ ["vint-hill", "new-york"]
        ⟨"u", "h", "d2"⟩ = .ok ("https://mt-client-api-v1." ++ "agiliumtrade.ai")) ∧
    (get_server_url ⟨"agiliumtrade.ai", some "vint-hill", true⟩
        ["vint-hill", "new-york"] ⟨"u", "h", "d2"⟩
        = .ok ("https://mt-client-api-v1." ++ "agiliumtrade.ai")) ∧
    (get_server_url ⟨"agiliumtrade.ai", some "new-york", true⟩
        ["vint-hill", "new-york"] ⟨"u", "h", "d2"⟩
        = .ok ("https://mt-client-api-v1." ++ "new-york" ++ "." ++ "agiliumtrade.ai")) ∧
    (get_server_url ⟨"agiliumtrade.ai", some "tokyo", false⟩
        ["vint-hill", "new-york"] ⟨"u", "h", "d2"⟩ = .error .notFound) := by
  have h1 := c8_url_resolver "agiliumtrade.ai" "vint-hill" ["vint-hill", "new-york"]
    ⟨"u", "h", "d2"⟩
  have h2 := c8_url_resolver "agiliumtrade.ai" "new-york" ["vint-hill", "new-york"]
    ⟨"u", "h", "d2"⟩
  have h3 := c8_url_resolver "agiliumtrade.ai" "tokyo" ["vint-hill", "new-york"]
    ⟨"u", "h", "d2"⟩
  exact ⟨h1.1, h1.2.1 (by decide), h2.2.2.1 (by decide) (by decide),
    h3.2.2.2 false (by decide)⟩

/-- Modelled from the spec: the retry loop of `rpc_request` tests
`err.__class__.__name__` against the list `['NotSynchronizedException',
'TimeoutException', 'NotAuthenticatedException', 'InternalException']`.
The exception class definitions imported at the top of
`metaApiWebsocket_client.py` are not part of the sources; the spec's §4.1
names the corresponding error kinds `NotSynchronized`, `Timeout`,
`NotConnected` (a.k.a. NotAuthenticated) and `Internal`, so membership in
that class-name list is modelled as membership in these kinds. -/
def retriableErrorName : ErrKind → Bool
  | .notSynchronized => true
  | .timeout => true
  | .notConnected => true
  | .internal => true
  | _ => false

/-- The per-retry sleep `min(pow(2, retry_counter) * minDelayInSeconds,
maxDelayInSeconds)`. -/
def backoffDelay (minDelay maxDelay : ℚ) (k : ℕ) : ℚ :=
  min ((2 ^ k : ℚ) * minDelay) maxDelay

/-- `calc_request_time`: the cumulative delay the remaining retries would
introduce, `sum over j in (counter, retries] of min(2^j * minDelay,
maxDelay)`. -/
def calcRequestTime (minDelay maxDelay : ℚ) (retries counter : ℕ) : ℚ :=
  (((List.range (retries - counter)).map
      (fun i => backoffDelay minDelay maxDelay (counter + 1 + i))).sum)

/-- An error caught by one iteration of the `rpc_request` retry loop:
its kind and, when the kind is TooManyRequests, the metadata's
`recommendedRetryTime` (ignored otherwise). -/
structure RpcError where
  kind : ErrKind
  recommendedRetryTime : ℚ
deriving Repr, DecidableEq

/-- What one iteration of the retry loop does with a caught error. -/
inductive RetryDecision
  | retryAfter (sleepSeconds : ℚ)
  | rethrow
deriving Repr, DecidableEq

/-- The error handling of one iteration of the `rpc_request` retry loop
(`except TooManyRequestsException` and the generic `except Exception`
branches): TooManyRequests retries, sleeping to `recommendedRetryTime`, when
`now + calc_request_time > recommendedRetryTime` and retries remain;
a retriable class name retries after the exponential backoff delay when
retries remain; everything else is rethrown. -/
def rpcRetryDecision (retries : ℕ) (minDelay maxDelay : ℚ) (counter : ℕ)
    (now : ℚ) (err : RpcError) : RetryDecision :=
  if err.kind = .tooManyRequests then
    if now + calcRequestTime minDelay maxDelay retries counter
         > err.recommendedRetryTime ∧ counter < retries then
      .retryAfter (max (err.recommendedRetryTime - now) 0)
    else .rethrow
  else if retriableErrorName err.kind = true ∧ counter < retries then
    .retryAfter (backoffDelay minDelay maxDelay counter)
  else .rethrow

/-- The outcome of one `_make_request` attempt, observed by the retry loop. -/
inductive AttemptResult
  | success
  | failure (err : RpcError)
deriving Repr, DecidableEq

/-- One attempt observation fed to the loop: the attempt's outcome, the
wall-clock time at which its failure handling runs, and whether the account
still has a socket assignment at the `account_id not in
self._socketInstancesByAccounts` re-check that follows a retry decision. -/
structure AttemptObservation where
  result : AttemptResult
  now : ℚ
  accountStillAssigned : Bool
deriving Repr, DecidableEq

/-- The observable outcome of `rpc_request`: a successful return, a raised
error kind, or an exhausted observation oracle; `attemptsUsed` counts the
`_make_request` attempts consumed. -/
inductive RpcOutcome
  | ok (attemptsUsed : ℕ)
  | error (kind : ErrKind) (attemptsUsed : ℕ)
  | pending
deriving Repr, DecidableEq

/-- Add one consumed attempt to an outcome. -/
def RpcOutcome.bump : RpcOutcome → RpcOutcome
  | .ok n => .ok (n + 1)
  | .error k n => .error k (n + 1)
  | .pending => .pending

/-- The `while True` retry loop of `rpc_request`, driven by the oracle of
attempt observations: a success returns; an error is handled by
`rpcRetryDecision`; on a retry decision the loop re-raises anyway when the
account has lost its socket assignment, and otherwise loops with the retry
counter incremented. -/
def rpcRetryLoop (retries : ℕ) (minDelay maxDelay : ℚ) :
    List AttemptObservation → ℕ → RpcOutcome
  | [], _ => .pending
  | obs :: rest, counter =>
      match obs.result with
      | .success => .ok 1
      | .failure err =>
          match rpcRetryDecision retries minDelay maxDelay counter obs.now err with
          | .rethrow => .error err.kind 1
          | .retryAfter _ =>
              if obs.accountStillAssigned then
                (rpcRetryLoop retries minDelay maxDelay rest (counter + 1)).bump
              else .error err.kind 1

/-- `rpc_request` after socket resolution: request types `trade` and
`subscribe` perform a single `_make_request` with no retry loop; every other
type runs the retry loop starting at `retry_counter = 0`. -/
def rpc_request_attempts (retries : ℕ) (minDelay maxDelay : ℚ) (reqType : String)
    (oracle : List AttemptObservation) : RpcOutcome :=
  if reqType = "trade" ∨ reqType = "subscribe" then
    match oracle with
    | [] => .pending
    | obs :: _ =>
        match obs.result with
        | .success => .ok 1
        | .failure err => .error err.kind 1
  else rpcRetryLoop retries minDelay maxDelay oracle 0

/-- C2 counterexample: a TooManyRequests failure is an error of a kind other
than NotSynchronized, Timeout, NotAuthenticated and Internal, yet the retry
loop does not rethrow it immediately: with the default retry options and a
recommendedRetryTime 10 s away, the first attempt's TooManyRequests failure
is retried and the call succeeds on the second attempt. -/
theorem c2_too_many_requests_not_rethrown_immediately :
    rpc_request_attempts 5 1 30 "getOrders"
      [⟨.failure ⟨.tooManyRequests, 10⟩, 0, true⟩, ⟨.success, 12, true⟩]
      = .ok 2 ∧
    RpcOutcome.ok 2 ≠ .error .tooManyRequests 1 := by
  constructor
  · rw [rpc_request_attempts, if_neg (by decide)]
    norm_num [rpcRetryLoop, rpcRetryDecision, calcRequestTime,
      backoffDelay, RpcOutcome.bump, List.range_succ]
  · decide

/-- C2 (amended): in the `rpc_request` retry loop, a failure whose kind is
NotSynchronized, Timeout, NotAuthenticated (NotConnected) or Internal with
fewer than `retryOpts.retries` retries used is retried after sleeping
`min(2^k * minDelayInSeconds, maxDelayInSeconds)`, provided the account has
kept its socket assignment (otherwise the error is re-raised after the
sleep); an error of any kind outside these four other than TooManyRequests is
rethrown immediately (TooManyRequests follows its own
recommendedRetryTime-based rule); and for request types `trade` and
`subscribe` exactly one attempt is made with no retry. -/
theorem c2_rpc_retry_policy (retries : ℕ) (minDelay maxDelay : ℚ) (counter : ℕ)
    (now : ℚ) (err : RpcError) (obs : AttemptObservation)
    (rest : List AttemptObservation) (reqType : String) :
    (retriableErrorName err.kind = true → counter < retries →
      rpcRetryDecision retries minDelay maxDelay counter now err
        = .retryAfter (backoffDelay minDelay maxDelay counter)) ∧
    (retriableErrorName err.kind = false → err.kind ≠ .tooManyRequests →
      rpcRetryDecision retries minDelay maxDelay counter now err = .rethrow) ∧
    (obs.result = .failure err → retriableErrorName err.kind = true →
      counter < retries → obs.accountStillAssigned = true →
      rpcRetryLoop retries minDelay maxDelay (obs :: rest) counter
        = (rpcRetryLoop retries minDelay maxDelay rest (counter + 1)).bump) ∧
    (obs.result = .failure err → retriableErrorName err.kind = false →
      err.kind ≠ .tooManyRequests →
      rpcRetryLoop retries minDelay maxDelay (obs :: rest) counter
        = .error err.kind 1) ∧
    ((reqType = "trade" ∨ reqType = "subscribe") →
      rpc_request_attempts retries minDelay maxDelay reqType (obs :: rest)
        = (match obs.result with
           | .success => .ok 1
           | .failure e => .error e.kind 1)) := by
  have hks : ∀ h : retriableErrorName err.kind = true, err.kind ≠ .tooManyRequests := by
    intro h he
    rw [he] at h
    simp [retriableErrorName] at h
  have hdec1 : ∀ t : ℚ, retriableErrorName err.kind = true → counter < retries →
      rpcRetryDecision retries minDelay maxDelay counter t err
        = .retryAfter (backoffDelay minDelay maxDelay counter) := by
    intro t h hc
    rw [rpcRetryDecision, if_neg (hks h), if_pos ⟨h, hc⟩]
  have hdec2 : ∀ t : ℚ, retriableErrorName err.kind = false →
      err.kind ≠ .tooManyRequests →
      rpcRetryDecision retries minDelay maxDelay counter t err = .rethrow := by
    intro t h hk
    rw [rpcRetryDecision, if_neg hk, if_neg]
    intro hand
    rw [h] at hand
    exact Bool.false_ne_true hand.1
  refine ⟨hdec1 now, hdec2 now, ?_, ?_, ?_⟩
  · intro hres h hc hass
    simp only [rpcRetryLoop, hres, hdec1 obs.now h hc, hass, if_true]
  · intro hres h hk
    simp only [rpcRetryLoop, hres, hdec2 obs.now h hk]
  · intro hty
    rw [rpc_request_attempts, if_pos hty]

/-- C2 witness: the amended retry policy evaluated at concrete inputs; a
NotSynchronized failure on the first of five allowed retries is retried with
the base backoff, a Validation failure is rethrown at once, and a `trade`
request observes exactly its single attempt. -/
theorem c2_rpc_retry_policy_witness :
    rpcRetryDecision 5 1 30 0 0 ⟨.notSynchronized, 0⟩
      = .retryAfter (backoffDelay 1 30 0) ∧
    rpcRetryDecision 5 1 30 0 0 ⟨.validation, 0⟩ = .rethrow ∧
    rpcRetryLoop 5 1 30 [⟨.failure ⟨.notSynchronized, 0⟩, 0, true⟩] 0
      = (rpcRetryLoop 5 1 30 [] 1).bump ∧
    rpcRetryLoop 5 1 30 [⟨.failure ⟨.validation, 0⟩, 0, true⟩] 0
      = .error .validation 1 ∧
    rpc_request_attempts 5 1 30 "trade" [⟨.failure ⟨.validation, 0⟩, 0, true⟩]
      = .error .validation 1 := by
  have ha := c2_rpc_retry_policy 5 1 30 0 0 ⟨.notSynchronized, 0⟩
    ⟨.failure ⟨.notSynchronized, 0⟩, 0, true⟩ [] "trade"
  have hb := c2_rpc_retry_policy 5 1 30 0 0 ⟨.validation, 0⟩
    ⟨.failure ⟨.validation, 0⟩, 0, true⟩ [] "trade"
  exact ⟨ha.1 (by decide) (by decide), hb.2.1 (by decide) (by decide),
    ha.2.2.1 rfl (by decide) (by decide) rfl,
    hb.2.2.2.1 rfl (by decide) (by decide),
    hb.2.2.2.2 (Or.inl rfl)⟩

/-- The account-id prefix of an instance id, `instance_id.split(':')[0]`:
the characters before the first colon (the whole string when it has none). -/
def accountIdOfInstance (instanceId : String) : String :=
  String.mk (instanceId.data.takeWhile (fun c => c ≠ ':'))

/-- `subscribed_account_ids`: walk the keys of `_connectedHosts` in order and
collect each account id at most once, provided the account is assigned to a
socket and (when an index is given) to the given socket index. -/
def subscribed_account_ids (st : ClientState) (idx : Option ℕ) : List String :=
  st.connectedHosts.foldl
    (fun connectedIds p =>
      let accountId := accountIdOfInstance p.1
      let assignedOk : Bool :=
        match st.socketInstancesByAccounts.lookup accountId with
        | some v =>
            match idx with
            | some i => v == i
            | none => true
        | none => false
      if !(connectedIds.contains accountId) && assignedOk then
        connectedIds ++ [accountId]
      else connectedIds)
    []

/-- `get_assigned_accounts`: the accounts whose entry in
`_socketInstancesByAccounts` names the given socket index. -/
def get_assigned_accounts (st : ClientState) (idx : ℕ) : List String :=
  (st.socketInstancesByAccounts.filter (fun p => p.2 == idx)).map Prod.fst

/-- The limit type that sets the pool-wide lock. -/
def perUserLimitType : String := "LIMIT_ACCOUNT_SUBSCRIPTIONS_PER_USER"

/-- `lock_socket_instance`: for the per-user limit type, set the pool-wide
lock with `lockedAtTime = now` and `lockedAtAccounts` the current number of
subscribed accounts; otherwise, when the socket has no subscribed accounts,
force-reconnect it (reported by the returned flag), and else set that
socket's lock. -/
def lock_socket_instance (st : ClientState) (idx : ℕ) (metadata : TMRMetadata)
    (now : ℚ) : ClientState × Bool :=
  if metadata.errType = perUserLimitType then
    let lock : GlobalLock :=
      { recommendedRetryTime := metadata.recommendedRetryTime
        lockedAtAccounts := (subscribed_account_ids st none).length
        lockedAtTime := now }
    ({ st with subscribeLock := some lock }, false)
  else
    let subscribedAccounts := subscribed_account_ids st (some idx)
    if subscribedAccounts.length = 0 then (st, true)
    else
      match st.socketInstances[idx]? with
      | some inst =>
          let lock : PerSocketLock :=
            { recommendedRetryTime := metadata.recommendedRetryTime
              lockType := metadata.errType
              lockedAtAccounts := subscribedAccounts.length }
          let inst2 : SocketInstance := { inst with subscribeLock := some lock }
          ({ st with socketInstances := st.socketInstances.set idx inst2 }, false)
      | none => (st, false)

/-- The three subscription limit types recognised by the supervisor. -/
def subscriptionLimitTypes : List String :=
  ["LIMIT_ACCOUNT_SUBSCRIPTIONS_PER_USER",
   "LIMIT_ACCOUNT_SUBSCRIPTIONS_PER_SERVER",
   "LIMIT_ACCOUNT_SUBSCRIPTIONS_PER_USER_PER_SERVER"]

/-- The `except TooManyRequestsException` handler of the supervisor's
`subscribe_task` (`SubscriptionManager.subscribe`): the account's current
socket index is read first (`None` models the `KeyError` on a missing
entry); for all three subscription limit types the account's socket
assignment is deleted and `lock_socket_instance` is invoked with the old
index (the source schedules it as a task; it is modelled as running on the
post-deletion state, which is the state it observes); for any other limit
type the task instead sleeps until `recommendedRetryTime` whenever `now +
subscribe_retry_interval_in_seconds < retry_time`. Returns the new state,
the reconnect flag from `lock_socket_instance` and the sleep duration. -/
def handle_subscribe_too_many_requests (st : ClientState) (accountId : String)
    (metadata : TMRMetadata) (now : ℚ) (backoffInterval : ℚ) :
    Option (ClientState × Bool × ℚ) :=
  match st.socketInstancesByAccounts.lookup accountId with
  | none => none
  | some idx =>
      if subscriptionLimitTypes.contains metadata.errType then
        let st1 : ClientState :=
          { st with socketInstancesByAccounts :=
              removeKey st.socketInstancesByAccounts accountId }
        let locked := lock_socket_instance st1 idx metadata now
        some (locked.1, locked.2, 0)
      else
        let sleep : ℚ :=
          if now + backoffInterval < metadata.recommendedRetryTime then
            metadata.recommendedRetryTime - now - backoffInterval
          else 0
        some (st, false, sleep)

/-- Deleting a key makes its lookup fail. -/
theorem lookup_removeKey_self {α : Type} (m : List (String × α)) (k : String) :
    (removeKey m k).lookup k = none := by
  induction m with
  | nil => rfl
  | cons p t ih =>
      by_cases h : p.1 = k
      · simp only [removeKey, List.filter_cons, h, beq_self_eq_true, Bool.not_true,
          Bool.false_eq_true, if_false]
        simpa [removeKey] using ih
      · have hb : (p.1 == k) = false := by simp [h]
        have hk : (k == p.1) = false := by
          simp only [beq_eq_false_iff_ne]
          exact fun e => h e.symm
        simp only [removeKey, List.filter_cons, hb, Bool.not_false, if_true,
          List.lookup, hk]
        simpa [removeKey] using ih

/-- `lock_socket_instance` never changes the account-to-socket map. -/
theorem lock_socket_instance_assignments (st : ClientState) (idx : ℕ)
    (metadata : TMRMetadata) (now : ℚ) :
    (lock_socket_instance st idx metadata now).1.socketInstancesByAccounts
      = st.socketInstancesByAccounts := by
  rw [lock_socket_instance]
  dsimp only
  repeat' split
  all_goals rfl

/-- Deleting the account's entry from `_socketInstancesByAccounts`
(`del self._socketInstancesByAccounts[account_id]`). -/
def removeAssignment (st : ClientState) (accountId : String) : ClientState :=
  { st with socketInstancesByAccounts :=
      removeKey st.socketInstancesByAccounts accountId }

/-- A client with one socket carrying two authenticated accounts `a` and `b`,
used to evaluate the supervisor's TooManyRequests handling. -/
def c3State : ClientState :=
  { emptyClient with
    socketInstances :=
      [{ connected := true, requestResolves := [], sessionId := "s", subscribeLock := none }]
    socketInstancesByAccounts := [("a", 0), ("b", 0)]
    connectedHosts := [("a:0:h", "h"), ("b:0:h", "h")] }

/-- C3 counterexample: for `LIMIT_ACCOUNT_SUBSCRIPTIONS_PER_USER` the
supervisor does NOT leave the account's socket assignment in place — account
`a` has no assignment afterwards (while the pool-wide lock is set as
claimed); and for `LIMIT_ACCOUNT_SUBSCRIPTIONS_PER_SERVER` the handler
returns a sleep of 0 seconds even though `recommendedRetryTime = 100`
exceeds the next natural backoff `now + 3` — the sleep-until-retry-time rule
applies only to TooManyRequests of other types. -/
theorem c3_per_user_removes_assignment_and_per_server_never_sleeps :
    ((handle_subscribe_too_many_requests c3State "a"
        ⟨"LIMIT_ACCOUNT_SUBSCRIPTIONS_PER_USER", 100⟩ 0 3).map
      (fun r => (r.1.socketInstancesByAccounts.lookup "a", r.1.subscribeLock))
      = some (none, some ⟨100, 1, 0⟩)) ∧
    ((handle_subscribe_too_many_requests c3State "a"
        ⟨"LIMIT_ACCOUNT_SUBSCRIPTIONS_PER_SERVER", 100⟩ 0 3).map
      (fun r => r.2.2) = some 0) ∧
    (0 : ℚ) + 3 < 100 := by
  refine ⟨by rfl, by rfl, by norm_num⟩

/-- C3 (amended): when a supervised subscribe attempt fails with
TooManyRequests, the supervisor removes the account's socket assignment for
all three subscription limit types (including
`LIMIT_ACCOUNT_SUBSCRIPTIONS_PER_USER`, which is additionally logged) and
invokes `lock_socket_instance`: for the per-user type that sets the
pool-wide lock (with `lockedAtTime = now`), for the per-server types it sets
the socket's own lock (or force-reconnects a socket with no subscribed
accounts), and no sleep happens for these types; sleeping until
`recommendedRetryTime` when it exceeds the next natural backoff happens only
for TooManyRequests errors of other types. -/
theorem c3_subscribe_too_many_requests_policy (st : ClientState)
    (accountId : String) (metadata : TMRMetadata) (now backoff : ℚ) (idx : ℕ)
    (hidx : st.socketInstancesByAccounts.lookup accountId = some idx) :
    (subscriptionLimitTypes.contains metadata.errType = true →
      handle_subscribe_too_many_requests st accountId metadata now backoff
        = some ((lock_socket_instance (removeAssignment st accountId) idx metadata now).1,
            (lock_socket_instance (removeAssignment st accountId) idx metadata now).2, 0)
      ∧ (lock_socket_instance
            (removeAssignment st accountId) idx metadata now).1.socketInstancesByAccounts.lookup
            accountId = none) ∧
    (metadata.errType = perUserLimitType → ∀ s : ClientState,
      (lock_socket_instance s idx metadata now).1.subscribeLock
        = some { recommendedRetryTime := metadata.recommendedRetryTime,
                 lockedAtAccounts := (subscribed_account_ids s none).length,
                 lockedAtTime := now } ∧
      (lock_socket_instance s idx metadata now).2 = false) ∧
    (metadata.errType ≠ perUserLimitType → ∀ s : ClientState, ∀ inst : SocketInstance,
      s.socketInstances[idx]? = some inst →
      (subscribed_account_ids s (some idx)).length ≠ 0 →
      (lock_socket_instance s idx metadata now).1.socketInstances[idx]?
        = some ({ inst with subscribeLock := some (PerSocketLock.mk metadata.recommendedRetryTime metadata.errType ((subscribed_account_ids s (some idx)).length)) })) ∧
    (metadata.errType ≠ perUserLimitType → ∀ s : ClientState,
      (subscribed_account_ids s (some idx)).length = 0 →
      lock_socket_instance s idx metadata now = (s, true)) ∧
    (subscriptionLimitTypes.contains metadata.errType = false →
      handle_subscribe_too_many_requests st accountId metadata now backoff
        = some (st, false,
            if now + backoff < metadata.recommendedRetryTime then
              metadata.recommendedRetryTime - now - backoff
            else 0)) := by
  refine ⟨?_, ?_, ?_, ?_, ?_⟩
  · intro hmem
    constructor
    · rw [handle_subscribe_too_many_requests, hidx]
      simp only [hmem, if_true, removeAssignment]
    · rw [lock_socket_instance_assignments]
      exact lookup_removeKey_self st.socketInstancesByAccounts accountId
  · intro htype s
    rw [lock_socket_instance, if_pos htype]
    exact ⟨rfl, rfl⟩
  · intro htype s inst hinst hlen
    obtain ⟨hlt, _⟩ := List.getElem?_eq_some.mp hinst
    rw [lock_socket_instance, if_neg htype]
    dsimp only
    rw [if_neg hlen, hinst]
    dsimp only
    rw [List.getElem?_set_eq_of_lt _ (by simpa using hlt)]
  · intro htype s hlen
    rw [lock_socket_instance, if_neg htype]
    dsimp only
    rw [if_pos hlen]
  · intro hmem
    rw [handle_subscribe_too_many_requests, hidx]
    simp only [hmem, Bool.false_eq_true, if_false]

/-- C3 witness: the amended policy evaluated at the concrete two-account
client `c3State`, with a per-user lock, a per-server lock and an
unrecognised limit type. -/
theorem c3_subscribe_too_many_requests_policy_witness :
    (handle_subscribe_too_many_requests c3State "a"
        ⟨"LIMIT_ACCOUNT_SUBSCRIPTIONS_PER_USER", 100⟩ 0 3
      = some ((lock_socket_instance (removeAssignment c3State "a") 0
            ⟨"LIMIT_ACCOUNT_SUBSCRIPTIONS_PER_USER", 100⟩ 0).1,
          (lock_socket_instance (removeAssignment c3State "a") 0
            ⟨"LIMIT_ACCOUNT_SUBSCRIPTIONS_PER_USER", 100⟩ 0).2, 0)) ∧
    ((lock_socket_instance (removeAssignment c3State "a") 0
        ⟨"LIMIT_ACCOUNT_SUBSCRIPTIONS_PER_USER", 100⟩ 0).1.subscribeLock
      = some { recommendedRetryTime := 100, lockedAtAccounts := 1, lockedAtTime := 0 }) ∧
    ((lock_socket_instance (removeAssignment c3State "a") 0
        ⟨"LIMIT_ACCOUNT_SUBSCRIPTIONS_PER_SERVER", 100⟩ 0).1.socketInstances[0]?
      = some (SocketInstance.mk true [] "s"
          (some (PerSocketLock.mk 100 "LIMIT_ACCOUNT_SUBSCRIPTIONS_PER_SERVER" 1)))) ∧
    (handle_subscribe_too_many_requests c3State "a" ⟨"SOME_OTHER_LIMIT", 100⟩ 0 3
      = some (c3State, false,
          if (0 : ℚ) + 3 < 100 then (100 : ℚ) - 0 - 3 else 0)) := by
  have h1 := c3_subscribe_too_many_requests_policy c3State "a"
    ⟨"LIMIT_ACCOUNT_SUBSCRIPTIONS_PER_USER", 100⟩ 0 3 0 (by rfl)
  have h2 := c3_subscribe_too_many_requests_policy c3State "a"
    ⟨"LIMIT_ACCOUNT_SUBSCRIPTIONS_PER_SERVER", 100⟩ 0 3 0 (by rfl)
  have h3 := c3_subscribe_too_many_requests_policy c3State "a"
    ⟨"SOME_OTHER_LIMIT", 100⟩ 0 3 0 (by rfl)
  refine ⟨(h1.1 (by rfl)).1, (h1.2.1 rfl (removeAssignment c3State "a")).1, ?_, h3.2.2.2.2 (by rfl)⟩
  have := h2.2.2.1 (by decide) (removeAssignment c3State "a")
    { connected := true, requestResolves := [], sessionId := "s", subscribeLock := none }
    (by rfl) (by decide)
  simpa using this

/-- The guard of the global subscribe-lock polling loop in `rpc_request`:
the loop keeps sleeping while the lock is set and either the
recommendedRetryTime is still in the future with fewer subscribed accounts
than `lockedAtAccounts`, or the cooldown window since `lockedAtTime` has not
elapsed with at least `lockedAtAccounts` subscribed accounts. -/
def lockWaitGuard (lock : Option GlobalLock) (cooldown : ℚ) (now : ℚ)
    (subscribedCount : ℕ) : Bool :=
  match lock with
  | none => false
  | some l =>
      (decide (l.recommendedRetryTime > now) &&
        decide (subscribedCount < l.lockedAtAccounts)) ||
      (decide (l.lockedAtTime + cooldown > now) &&
        decide (subscribedCount ≥ l.lockedAtAccounts))

/-- The `while ...: await asyncio.sleep(1)` polling loop of `rpc_request`,
for an unassigned account: `count` gives the number of subscribed accounts as
observed at each 1-second poll; the loop returns the time at which it falls
through (`none` when the fuel runs out first). The lock itself is assumed
unchanged while the loop runs. -/
def lockWaitLoop (lock : Option GlobalLock) (cooldown : ℚ) (count : ℚ → ℕ) :
    ℕ → ℚ → Option ℚ
  | 0, now =>
      if lockWaitGuard lock cooldown now (count now) then none else some now
  | fuel + 1, now =>
      if lockWaitGuard lock cooldown now (count now) then
        lockWaitLoop lock cooldown count fuel (now + 1)
      else some now

/-- C4 counterexample: with a lock whose recommendedRetryTime is 5,
`lockedAtAccounts = 1` and `lockedAtTime = 0`, cooldown 600 and zero
subscribed accounts, the polling loop falls through (and assignment
proceeds) at `now = 5` exactly, yet neither of the claim's conditions holds
there: `now` does not exceed the recommendedRetryTime (5 > 5 is false) and
`now` does not exceed `lockedAtTime + cooldown`; the code exits at
`now ≥ recommendedRetryTime`, not strictly after it. -/
theorem c4_exit_at_exact_retry_time :
    lockWaitLoop (some ⟨5, 1, 0⟩) 600 (fun _ => 0) 0 5 = some 5 ∧
    ¬((5 : ℚ) > 5 ∧ (0 : ℕ) < 1) ∧
    ¬((5 : ℚ) > 0 + 600 ∧ (0 : ℕ) ≥ 1) := by
  refine ⟨?_, by norm_num, by norm_num⟩
  rw [lockWaitLoop]
  norm_num [lockWaitGuard]

/-- C4 (amended): while the global subscribe-lock is set, an account without
an existing socket assignment is not assigned until either now is at or past
the lock's recommendedRetryTime with the subscribed-account count strictly
below `lockedAtAccounts`, or now is at or past `lockedAtTime +
subscribeCooldownInSeconds` with the count at least `lockedAtAccounts`; the
assignment loop polls at 1-second intervals (every polled instant before the
fall-through satisfies the blocking guard). -/
theorem c4_lock_wait_loop (l : GlobalLock) (cooldown : ℚ) (count : ℚ → ℕ)
    (fuel : ℕ) (now t : ℚ) :
    (lockWaitGuard (some l) cooldown now (count now) = false ↔
      (now ≥ l.recommendedRetryTime ∧ count now < l.lockedAtAccounts) ∨
      (now ≥ l.lockedAtTime + cooldown ∧ count now ≥ l.lockedAtAccounts)) ∧
    (lockWaitLoop (some l) cooldown count fuel now = some t →
      ∃ k : ℕ, t = now + k ∧ k ≤ fuel ∧
        lockWaitGuard (some l) cooldown t (count t) = false ∧
        ∀ j : ℕ, j < k →
          lockWaitGuard (some l) cooldown (now + j) (count (now + j)) = true) := by
  constructor
  · by_cases hc : count now < l.lockedAtAccounts
    · have hd : ¬ (count now ≥ l.lockedAtAccounts) := not_le.mpr hc
      simp [lockWaitGuard, hc, hd, not_lt, ge_iff_le]
    · have hd : count now ≥ l.lockedAtAccounts := not_lt.mp hc
      simp [lockWaitGuard, hc, hd, not_lt, ge_iff_le]
  · induction fuel generalizing now with
    | zero =>
        intro h
        rw [lockWaitLoop] at h
        by_cases hg : lockWaitGuard (some l) cooldown now (count now) = true
        · rw [if_pos hg] at h
          exact absurd h (by simp)
        · rw [if_neg hg] at h
          have ht : now = t := by injection h
          subst ht
          refine ⟨0, by simp, le_refl 0, ?_, fun j hj => absurd hj (Nat.not_lt_zero j)⟩
          simpa using Bool.eq_false_iff.mpr hg
    | succ n ih =>
        intro h
        rw [lockWaitLoop] at h
        by_cases hg : lockWaitGuard (some l) cooldown now (count now) = true
        · rw [if_pos hg] at h
          obtain ⟨k, hk1, hk2, hk3, hk4⟩ := ih (now + 1) h
          refine ⟨k + 1, ?_, Nat.succ_le_succ hk2, hk3, ?_⟩
          · rw [hk1]
            push_cast
            ring
          · intro j hj
            cases j with
            | zero => simpa using hg
            | succ m =>
                have hm := hk4 m (Nat.lt_of_succ_lt_succ hj)
                have ht : now + ((m + 1 : ℕ) : ℚ) = (now + 1) + (m : ℚ) := by
                  push_cast
                  ring
                rw [ht]
                exact hm
        · rw [if_neg hg] at h
          have ht : now = t := by injection h
          subst ht
          refine ⟨0, by simp, Nat.zero_le _, ?_, fun j hj => absurd hj (Nat.not_lt_zero j)⟩
          simpa using Bool.eq_false_iff.mpr hg

/-- C4 witness: the loop started at time 3 under the lock
`(recommendedRetryTime 5, lockedAtAccounts 1, lockedAtTime 0)` with no
subscribed accounts falls through at time 5, every earlier polled instant
being blocked. -/
theorem c4_lock_wait_loop_witness :
    ∃ k : ℕ, (5 : ℚ) = 3 + k ∧ k ≤ 3 ∧
      lockWaitGuard (some ⟨5, 1, 0⟩) 600 5 ((fun _ => 0) (5 : ℚ)) = false ∧
      ∀ j : ℕ, j < k →
        lockWaitGuard (some ⟨5, 1, 0⟩) 600 (3 + j) ((fun _ => 0) ((3 : ℚ) + j)) = true := by
  refine (c4_lock_wait_loop ⟨5, 1, 0⟩ 600 (fun _ => 0) 3 3 5).2 ?_
  rw [lockWaitLoop]
  rw [if_pos (by norm_num [lockWaitGuard])]
  rw [lockWaitLoop]
  rw [if_pos (by norm_num [lockWaitGuard])]
  rw [lockWaitLoop]
  rw [if_neg (by norm_num [lockWaitGuard])]
  norm_num

/-- Assigning a key makes its lookup return the new value. -/
theorem lookup_setKey_self {α : Type} (m : List (String × α)) (k : String) (v : α) :
    (setKey m k v).lookup k = some v := by
  induction m with
  | nil => simp [setKey, List.lookup]
  | cons p t ih =>
      by_cases h : p.1 = k
      · simp [setKey, h, List.lookup]
      · have hb : (k == p.1) = false := by
          simp only [beq_eq_false_iff_ne]
          exact fun e => h e.symm
        simp [setKey, h, List.lookup, hb, ih]

/-- `self._maxAccountsPerInstance`, fixed at 100 by `__init__`. -/
def maxAccountsPerInstance : ℕ := 100

/-- The per-socket skip test of the assignment scan in `rpc_request`: a
socket with a `..._PER_USER_PER_SERVER` lock is skipped while the
recommendedRetryTime is in the future OR its subscribed-account count is at
least `lockedAtAccounts`; one with a `..._PER_SERVER` lock is skipped while
the retry time is in the future AND the count is at least
`lockedAtAccounts`; an unlocked socket is never skipped. -/
def socketSkipped (st : ClientState) (now : ℚ) (idx : ℕ)
    (inst : SocketInstance) : Bool :=
  match inst.subscribeLock with
  | none => false
  | some lk =>
      (lk.lockType == "LIMIT_ACCOUNT_SUBSCRIPTIONS_PER_USER_PER_SERVER" &&
        (decide (lk.recommendedRetryTime > now) ||
          decide ((subscribed_account_ids st (some idx)).length ≥ lk.lockedAtAccounts))) ||
      (lk.lockType == "LIMIT_ACCOUNT_SUBSCRIPTIONS_PER_SERVER" &&
        (decide (lk.recommendedRetryTime > now) &&
          decide ((subscribed_account_ids st (some idx)).length ≥ lk.lockedAtAccounts)))

/-- The `for index in range(len(self._socketInstances))` scan: skip locked
sockets per `socketSkipped`, pick the first remaining socket with fewer than
`maxAccountsPerInstance` assigned accounts. -/
def scanSocketsFrom (st : ClientState) (now : ℚ) :
    ℕ → List SocketInstance → Option ℕ
  | _, [] => none
  | i, inst :: rest =>
      if socketSkipped st now i inst then scanSocketsFrom st now (i + 1) rest
      else if (get_assigned_accounts st i).length < maxAccountsPerInstance then some i
      else scanSocketsFrom st now (i + 1) rest

/-- The assignment scan over the whole socket list. -/
def scanSockets (st : ClientState) (now : ℚ) : Option ℕ :=
  scanSocketsFrom st now 0 st.socketInstances

/-- A socket instance as appended by `connect()`: connected, with no pending
requests, a freshly generated session id and no lock. -/
def freshSocketInstance (sessionId : String) : SocketInstance :=
  { connected := true, requestResolves := [], sessionId := sessionId,
    subscribeLock := none }

/-- The socket-assignment step of `rpc_request` for an account with no
existing assignment (after the lock wait): pick a socket by the scan, or
append a fresh socket at index `len(self._socketInstances)` via `connect()`;
either way record the account's assignment to the chosen index. -/
def assignAccountToSocket (st : ClientState) (now : ℚ) (accountId : String)
    (freshSessionId : String) : ClientState × ℕ :=
  match scanSockets st now with
  | some i =>
      ({ st with socketInstancesByAccounts := setKey st.socketInstancesByAccounts accountId i }, i)
  | none =>
      let i := st.socketInstances.length
      let st2 : ClientState :=
        { st with
          socketInstances := st.socketInstances ++ [freshSocketInstance freshSessionId]
          socketInstancesByAccounts := setKey st.socketInstancesByAccounts accountId i }
      (st2, i)

/-- The scan starting at index `k` returns a socket that is not skipped and
has spare capacity, and every scanned index before it is skipped or full. -/
theorem scanSocketsFrom_some (st : ClientState) (now : ℚ) :
    ∀ (l : List SocketInstance) (k i : ℕ),
      scanSocketsFrom st now k l = some i →
      k ≤ i ∧
      (∃ inst, l[i - k]? = some inst ∧
        socketSkipped st now i inst = false ∧
        (get_assigned_accounts st i).length < maxAccountsPerInstance) ∧
      ∀ j instj, k ≤ j → j < i → l[j - k]? = some instj →
        (socketSkipped st now j instj = true ∨
          (get_assigned_accounts st j).length ≥ maxAccountsPerInstance) := by
  intro l
  induction l with
  | nil =>
      intro k i h
      exact absurd h (by simp [scanSocketsFrom])
  | cons inst0 rest ih =>
      intro k i h
      rw [scanSocketsFrom] at h
      by_cases hskip : socketSkipped st now k inst0 = true
      · rw [if_pos hskip] at h
        obtain ⟨hki, ⟨inst, hget, hsk, hcap⟩, hall⟩ := ih (k + 1) i h
        refine ⟨le_trans (Nat.le_succ k) hki, ⟨inst, ?_, hsk, hcap⟩, ?_⟩
        · have hik : i - k = (i - (k + 1)) + 1 := by omega
          rw [hik, List.getElem?_cons_succ]
          exact hget
        · intro j instj hkj hji hgetj
          rcases Nat.eq_or_lt_of_le hkj with heq | hlt
          · have hjk : j - k = 0 := by omega
            rw [hjk, List.getElem?_cons_zero] at hgetj
            have hinst : inst0 = instj := by injection hgetj
            refine Or.inl ?_
            rw [← heq, ← hinst]
            exact hskip
          · have hjk : j - k = (j - (k + 1)) + 1 := by omega
            rw [hjk, List.getElem?_cons_succ] at hgetj
            exact hall j instj hlt hji hgetj
      · rw [if_neg hskip] at h
        by_cases hcap : (get_assigned_accounts st k).length < maxAccountsPerInstance
        · rw [if_pos hcap] at h
          have hk : k = i := by injection h
          subst hk
          refine ⟨le_refl k, ⟨inst0, by simp, Bool.eq_false_iff.mpr hskip, hcap⟩, ?_⟩
          intro j instj hkj hji _
          exact absurd (lt_of_le_of_lt hkj hji) (lt_irrefl k)
        · rw [if_neg hcap] at h
          obtain ⟨hki, ⟨inst, hget, hsk, hcap2⟩, hall⟩ := ih (k + 1) i h
          refine ⟨le_trans (Nat.le_succ k) hki, ⟨inst, ?_, hsk, hcap2⟩, ?_⟩
          · have hik : i - k = (i - (k + 1)) + 1 := by omega
            rw [hik, List.getElem?_cons_succ]
            exact hget
          · intro j instj hkj hji hgetj
            rcases Nat.eq_or_lt_of_le hkj with heq | hlt
            · refine Or.inr ?_
              rw [← heq]
              exact not_lt.mp hcap
            · have hjk : j - k = (j - (k + 1)) + 1 := by omega
              rw [hjk, List.getElem?_cons_succ] at hgetj
              exact hall j instj hlt hji hgetj

/-- C5: when assigning an unassigned account, the scan picks the first (in
index order) socket that is neither skipped by its lock's predicate nor at
the 100-account capacity — every smaller index is skipped or full — and when
no socket qualifies, a fresh socket is appended at index
`len(socketInstances)`; in both cases the account's assignment records the
chosen index. -/
theorem c5_socket_assignment (st : ClientState) (now : ℚ)
    (accountId freshSessionId : String) (i : ℕ) :
    (scanSockets st now = some i →
      ∃ inst, st.socketInstances[i]? = some inst ∧
        socketSkipped st now i inst = false ∧
        (get_assigned_accounts st i).length < maxAccountsPerInstance ∧
        ∀ j instj, j < i → st.socketInstances[j]? = some instj →
          (socketSkipped st now j instj = true ∨
            (get_assigned_accounts st j).length ≥ maxAccountsPerInstance)) ∧
    (scanSockets st now = none →
      (assignAccountToSocket st now accountId freshSessionId).2
        = st.socketInstances.length ∧
      (assignAccountToSocket st now accountId freshSessionId).1.socketInstances.length
        = st.socketInstances.length + 1) ∧
    ((assignAccountToSocket st now accountId
        freshSessionId).1.socketInstancesByAccounts.lookup accountId
      = some (assignAccountToSocket st now accountId freshSessionId).2) := by
  refine ⟨?_, ?_, ?_⟩
  · intro h
    obtain ⟨_, ⟨inst, hget, hsk, hcap⟩, hall⟩ :=
      scanSocketsFrom_some st now st.socketInstances 0 i h
    rw [Nat.sub_zero] at hget
    refine ⟨inst, hget, hsk, hcap, ?_⟩
    intro j instj hji hgetj
    exact hall j instj (Nat.zero_le j) hji (by rwa [Nat.sub_zero])
  · intro h
    rw [assignAccountToSocket, h]
    simp
  · rw [assignAccountToSocket]
    cases h : scanSockets st now <;> simp [lookup_setKey_self]

/-- A two-socket client: socket 0 carries a per-user-per-server lock whose
retry time is still ahead, socket 1 is unlocked and empty. -/
def c5State : ClientState :=
  { emptyClient with
    socketInstances :=
      [{ connected := true, requestResolves := [], sessionId := "s0",
         subscribeLock := some ⟨10, "LIMIT_ACCOUNT_SUBSCRIPTIONS_PER_USER_PER_SERVER", 0⟩ },
       { connected := true, requestResolves := [], sessionId := "s1",
         subscribeLock := none }] }

/-- C5 witness: on `c5State` at time 0 the scan skips locked socket 0 and
picks socket 1 (recorded in the assignment map); on a client with no sockets
the scan fails and a fresh socket is appended at index 0. -/
theorem c5_socket_assignment_witness :
    (∃ inst, c5State.socketInstances[1]? = some inst ∧
      socketSkipped c5State 0 1 inst = false ∧
      (get_assigned_accounts c5State 1).length < maxAccountsPerInstance ∧
      ∀ j instj, j < 1 → c5State.socketInstances[j]? = some instj →
        (socketSkipped c5State 0 j instj = true ∨
          (get_assigned_accounts c5State j).length ≥ maxAccountsPerInstance)) ∧
    ((assignAccountToSocket emptyClient 0 "a" "sid").2 = 0 ∧
      (assignAccountToSocket emptyClient 0 "a" "sid").1.socketInstances.length = 1) ∧
    ((assignAccountToSocket c5State 0 "a" "sid").1.socketInstancesByAccounts.lookup "a"
      = some (assignAccountToSocket c5State 0 "a" "sid").2) := by
  have hscan : scanSockets c5State 0 = some 1 := by
    rw [scanSockets]
    have hl : c5State.socketInstances =
        [SocketInstance.mk true [] "s0"
          (some (PerSocketLock.mk 10 "LIMIT_ACCOUNT_SUBSCRIPTIONS_PER_USER_PER_SERVER" 0)),
         SocketInstance.mk true [] "s1" none] := rfl
    rw [hl, scanSocketsFrom]
    rw [if_pos (by simp [socketSkipped, c5State, emptyClient, subscribed_account_ids])]
    rw [scanSocketsFrom]
    rw [if_neg (by simp [socketSkipped, c5State, emptyClient])]
    rw [if_pos (by simp [get_assigned_accounts, c5State, emptyClient,
      maxAccountsPerInstance])]
  refine ⟨(c5_socket_assignment c5State 0 "a" "sid" 1).1 hscan, ?_,
    (c5_socket_assignment c5State 0 "a" "sid" 1).2.2⟩
  have h := (c5_socket_assignment emptyClient 0 "a" "sid" 0).2.1 (by rfl)
  simpa using h

/-- An inbound synchronization packet, restricted to the header fields the
`authenticated` branch of `_process_synchronization_packet` reads. -/
structure SyncPacket where
  ptype : String
  accountId : String
  instanceIndex : Option ℕ
  host : Option String
  sessionId : Option String
  replicas : ℕ
deriving Repr, DecidableEq

/-- `instance_number = data['instanceIndex'] if present else 0`. -/
def instanceNumberOf (p : SyncPacket) : ℕ := p.instanceIndex.getD 0

/-- `instance_id = accountId + ':' + instance_number + ':' + (host or '0')`. -/
def instanceIdOf (p : SyncPacket) : String :=
  p.accountId ++ ":" ++ toString (instanceNumberOf p) ++ ":" ++ p.host.getD "0"

/-- `instance_index = instance_number + ':' + (host or '0')`. -/
def instanceIndexStrOf (p : SyncPacket) : String :=
  toString (instanceNumberOf p) ++ ":" ++ p.host.getD "0"

/-- `SubscriptionManager.cancel_subscribe`: when the instance id has an
entry, its `shouldRetry` flag is set to `False` (the source also cancels the
pending wait future and the in-flight attempt task, which have no
representation in this state); an absent entry is left untouched. -/
def cancel_subscribe (subs : List (String × Bool)) (instanceId : String) :
    List (String × Bool) :=
  match subs.lookup instanceId with
  | some _ => setKey subs instanceId false
  | none => subs

/-- The session check of the `authenticated` branch:
`'sessionId' not in data or socket_instance and data['sessionId'] ==
socket_instance['sessionId']`, where `socket_instance` is the instance the
account is assigned to (`None` when unassigned). -/
def sessionMatches (st : ClientState) (p : SyncPacket) : Bool :=
  p.sessionId.isNone ||
    (match (match st.socketInstancesByAccounts.lookup p.accountId with
            | some i => st.socketInstances[i]?
            | none => none), p.sessionId with
     | some inst, some sid => sid == inst.sessionId
     | _, _ => false)

/-- A listener notification produced while processing a packet. -/
inductive ListenerEvent
  | onConnected (listener : ℕ) (instanceIndex : String) (replicas : ℕ)
deriving Repr, DecidableEq

/-- The `authenticated` branch of `_process_synchronization_packet`: reset
the 60-second disconnect watchdog; when the session check passes, record the
packet's host (if any) in `_connectedHosts` under the instance id, and — only
when the account has an entry in `_synchronizationListeners` — notify every
registered listener with `on_connected(instance_index, replicas)` and cancel
the supervisor subscribe loop of `accountId:instanceNumber`. Packets of
other types are outside this model and leave the state unchanged. -/
def process_authenticated (st : ClientState) (p : SyncPacket) (now : ℚ) :
    ClientState × List ListenerEvent :=
  if p.ptype = "authenticated" then
    let st1 : ClientState :=
      { st with statusTimers := setKey st.statusTimers (instanceIdOf p) (now + 60) }
    if sessionMatches st p then
      let st2 : ClientState :=
        match p.host with
        | some h =>
            { st1 with connectedHosts := setKey st1.connectedHosts (instanceIdOf p) h }
        | none => st1
      match st2.synchronizationListeners.lookup p.accountId with
      | some listeners =>
          let events := listeners.map
            (fun l => ListenerEvent.onConnected l (instanceIndexStrOf p) p.replicas)
          let subs2 := cancel_subscribe st2.subscriptions
            (p.accountId ++ ":" ++ toString (instanceNumberOf p))
          let st3 : ClientState := { st2 with subscriptions := subs2 }
          (st3, events)
      | none => (st2, [])
    else (st1, [])
  else (st, [])

/-- A client with an assigned, actively subscribing account `a` that has no
registered synchronization listeners. -/
def c9State : ClientState :=
  { emptyClient with
    socketInstances :=
      [{ connected := true, requestResolves := [], sessionId := "sess",
         subscribeLock := none }]
    socketInstancesByAccounts := [("a", 0)]
    subscriptions := [("a:0", true)] }

/-- The authenticated packet for account `a` whose sessionId matches. -/
def c9Packet : SyncPacket :=
  { ptype := "authenticated", accountId := "a", instanceIndex := some 0,
    host := some "h", sessionId := some "sess", replicas := 1 }

/-- C9 counterexample: an authenticated packet with a matching sessionId for
an account that has NO registered synchronization listeners records the host
in ConnectedHosts but does not cancel the supervisor subscribe loop — the
`cancel_subscribe` call sits inside the
`if data['accountId'] in self._synchronizationListeners` block, so the
subscription's shouldRetry flag stays `True`. -/
theorem c9_no_listener_entry_skips_cancel_subscribe :
    ((process_authenticated c9State c9Packet 0).1.subscriptions.lookup "a:0"
      = some true) ∧
    ((process_authenticated c9State c9Packet 0).1.connectedHosts.lookup "a:0:h"
      = some "h") ∧
    ((process_authenticated c9State c9Packet 0).2 = []) := by
  refine ⟨by rfl, by rfl, by rfl⟩

/-- C9 (amended): for every authenticated packet whose sessionId matches the
assigned socket's sessionId or is absent, and that carries a host, processing
the packet resets the 60-second disconnect watchdog, records the host in
ConnectedHosts under the packet's instance key, and — provided the account
has an entry in the synchronization-listener registry — cancels the
supervisor subscribe loop for `accountId:instanceNumber` and invokes
`on_connected(instanceIndex, replicas)` on every listener of that entry. -/
theorem c9_authenticated_packet (st : ClientState) (p : SyncPacket) (now : ℚ)
    (L : List ℕ) (h : String)
    (hty : p.ptype = "authenticated")
    (hsess : sessionMatches st p = true)
    (hhost : p.host = some h)
    (hlist : st.synchronizationListeners.lookup p.accountId = some L) :
    ((process_authenticated st p now).1.statusTimers.lookup (instanceIdOf p)
      = some (now + 60)) ∧
    ((process_authenticated st p now).1.connectedHosts.lookup (instanceIdOf p)
      = some h) ∧
    ((process_authenticated st p now).1.subscriptions
      = cancel_subscribe st.subscriptions
          (p.accountId ++ ":" ++ toString (instanceNumberOf p))) ∧
    (∀ b : Bool,
      st.subscriptions.lookup (p.accountId ++ ":" ++ toString (instanceNumberOf p))
        = some b →
      (process_authenticated st p now).1.subscriptions.lookup
          (p.accountId ++ ":" ++ toString (instanceNumberOf p)) = some false) ∧
    ((process_authenticated st p now).2
      = L.map (fun l => ListenerEvent.onConnected l (instanceIndexStrOf p) p.replicas)) := by
  have hred : process_authenticated st p now =
      (ClientState.mk st.socketInstances st.socketInstancesByAccounts
        st.synchronizationListeners st.latencyListeners st.reconnectListeners
        (setKey st.connectedHosts (instanceIdOf p) h) st.subscribeLock
        (cancel_subscribe st.subscriptions
          (p.accountId ++ ":" ++ toString (instanceNumberOf p)))
        (setKey st.statusTimers (instanceIdOf p) (now + 60)) st.lastRequestsTime,
       L.map (fun l => ListenerEvent.onConnected l (instanceIndexStrOf p) p.replicas)) := by
    rw [process_authenticated, if_pos hty, if_pos hsess, hhost]
    dsimp only
    rw [show List.lookup p.accountId st.synchronizationListeners = some L from hlist]
  refine ⟨?_, ?_, ?_, ?_, ?_⟩
  · rw [hred]
    exact lookup_setKey_self _ _ _
  · rw [hred]
    exact lookup_setKey_self _ _ _
  · rw [hred]
  · intro b hb
    rw [hred]
    dsimp only
    rw [cancel_subscribe, hb]
    exact lookup_setKey_self _ _ _
  · rw [hred]

/-- A client like `c9State` but with one registered synchronization listener
for account `a`. -/
def c9StateL : ClientState :=
  { c9State with synchronizationListeners := [("a", [7])] }

/-- C9 witness: on the concrete client with listener 7 registered for the
account, the authenticated packet records host `h`, resets the watchdog to
fire at 60, flips the subscription's shouldRetry flag to false and notifies
listener 7. -/
theorem c9_authenticated_packet_witness :
    ((process_authenticated c9StateL c9Packet 0).1.statusTimers.lookup "a:0:h"
      = some ((0 : ℚ) + 60)) ∧
    ((process_authenticated c9StateL c9Packet 0).1.connectedHosts.lookup "a:0:h"
      = some "h") ∧
    ((process_authenticated c9StateL c9Packet 0).1.subscriptions.lookup "a:0"
      = some false) ∧
    ((process_authenticated c9StateL c9Packet 0).2
      = [ListenerEvent.onConnected 7 "0:h" 1]) := by
  have hc := c9_authenticated_packet c9StateL c9Packet 0 [7] "h" (by rfl) (by rfl)
    (by rfl) (by rfl)
  refine ⟨?_, ?_, hc.2.2.2.1 true (by rfl), ?_⟩
  · have := hc.1
    simpa [instanceIdOf, c9Packet, instanceNumberOf] using this
  · have := hc.2.1
    simpa [instanceIdOf, c9Packet, instanceNumberOf] using this
  · have := hc.2.2.2.2
    simpa [instanceIndexStrOf, c9Packet, instanceNumberOf] using this

end MetaApiSDK
